import Mathlib

/-!
Shallow embedding of the LogSentinel pipeline (Rust) and verification of its
specification claims.  Each definition is translated from the corresponding
Rust source file; external collaborators (the JSON parser, the regex engine,
the HTTP clients, the `governor` rate-limiting crate) appear as explicit
inputs or oracles so that every definition stays executable.
-/

namespace LogSentinel

/-- Substring containment on character lists: `pat` occurs contiguously in
`s`.  Models Rust `str::contains` with a string pattern (the empty pattern
always occurs). -/
def listContainsSub (s pat : List Char) : Bool :=
  match s with
  | [] => pat.isEmpty
  | _ :: rest => pat.isPrefixOf s || listContainsSub rest pat

/-- `strContains s pat` models Rust `s.contains(pat)` for string patterns. -/
def strContains (s pat : String) : Bool :=
  listContainsSub s.data pat.data

/-- `trimEnd s` models Rust `str::trim_end`: drop trailing whitespace. -/
def trimEnd (s : String) : String :=
  ⟨(s.data.reverse.dropWhile Char.isWhitespace).reverse⟩

/-- `strToUpper s` models Rust `str::to_uppercase`, uppercasing character
by character. -/
def strToUpper (s : String) : String :=
  ⟨s.data.map Char.toUpper⟩

/-- `SecurityAlert` from `src/models.rs`: the record built by the analyzer
and consumed by the dispatcher. -/
structure SecurityAlert where
  timestamp : String
  source_type : String
  severity : String
  attack_type : String
  description : String
  original_log : String
deriving DecidableEq, Repr

/- ### Analyzer (`src/analyzer.rs`) -/

/-- One element of the parsed classifier batch response, as `analyze_batch`
reads it out of a `serde_json::Value`: each field access
`item["f"].as_str()` / `as_u64()` yields `none` when the field is absent or
of the wrong type. -/
structure BatchResultItem where
  index : Option Nat
  status : Option String
  severity : Option String
  attack_type : Option String
  description : Option String
deriving DecidableEq, Repr

/-- The `for item in results` loop body of `Agent::analyze_batch`
(src/analyzer.rs lines 44-63): skip when `status == "NULL"` (absent status
reads as `""`), skip when the index (absent reads as `0`) is out of range,
otherwise push an alert bound to `lines[index]`. -/
def analyzeBatchLoop (lines : List String) (source now : String) :
    List BatchResultItem → List SecurityAlert
  | [] => []
  | item :: rest =>
    let status := item.status.getD ""
    if status = "NULL" then
      analyzeBatchLoop lines source now rest
    else
      let index := item.index.getD 0
      if lines.length ≤ index then
        analyzeBatchLoop lines source now rest
      else
        { timestamp := now
          source_type := source
          severity := item.severity.getD "LOW"
          attack_type := item.attack_type.getD "Unknown"
          description := item.description.getD ""
          original_log := lines.getD index "" } :: analyzeBatchLoop lines source now rest

/-- `Agent::analyze_batch` (src/analyzer.rs lines 36-67).  The provider call
and the JSON parse are external: `resp` is `Except.error` for a transport
error, `Except.ok none` when the response string does not parse as a JSON
array, and `Except.ok (some items)` for a parsed array.  `now` stands for
`Utc::now().to_rfc3339()`. -/
def Agent.analyze_batch (lines : List String) (source now : String)
    (resp : Except Unit (Option (List BatchResultItem))) : List SecurityAlert :=
  match resp with
  | .error _ => []
  | .ok none => []
  | .ok (some results) => analyzeBatchLoop lines source now results

/-- The three string fields `Agent::analyze` reads from a parsed
single-entry response. -/
structure SingleVerdict where
  severity : Option String
  attack_type : Option String
  description : Option String
deriving DecidableEq, Repr

/-- `Agent::analyze` (src/analyzer.rs lines 15-34).  `resp` carries the
provider outcome: on success, the raw response string together with its
JSON parse result (`none` when `serde_json::from_str` fails). -/
def Agent.analyze (line source now : String)
    (resp : Except Unit (String × Option SingleVerdict)) : Option SecurityAlert :=
  match resp with
  | .error _ => none
  | .ok (result_str, parsed) =>
    if strContains result_str "NULL" then none
    else
      match parsed with
      | some v =>
        some { timestamp := now
               source_type := source
               severity := v.severity.getD "LOW"
               attack_type := v.attack_type.getD "Unknown"
               description := v.description.getD ""
               original_log := line }
      | none => none

/- ### Filter (`src/filter.rs`, config types from `src/config.rs`) -/

inductive SignatureType where
  | Exact
  | CaseInsensitive
  | Regex
deriving DecidableEq, Repr

structure ThreatSignature where
  id : String
  pattern : String
  sig_type : SignatureType
  description : String
deriving DecidableEq, Repr

/-- `LogFilterConfig` from src/config.rs (the `signatures_path` field is
only used at load time and does not influence `is_suspicious`). -/
structure LogFilterConfig where
  signatures_path : String
  error_codes : List String
  multiline_pattern : Option String
  signatures : List ThreatSignature
deriving Repr

/-- Whether one signature matches the line, as in the `match sig.sig_type`
arms of `is_suspicious`.  `rmatch` is the regex engine oracle: given a
pattern, `none` models a compile failure of `regex::Regex::new` and
`some re` the compiled matcher. -/
def sigMatches (rmatch : String → Option (String → Bool))
    (line : String) (sig : ThreatSignature) : Bool :=
  match sig.sig_type with
  | .Exact => strContains line sig.pattern
  | .CaseInsensitive => strContains (strToUpper line) (strToUpper sig.pattern)
  | .Regex =>
    match rmatch sig.pattern with
    | some re => re line
    | none => false

/-- The signature loop of `is_suspicious` (src/filter.rs lines 14-34):
return `true` as soon as one signature matches. -/
def checkSignatures (rmatch : String → Option (String → Bool))
    (line : String) : List ThreatSignature → Bool
  | [] => false
  | sig :: rest => sigMatches rmatch line sig || checkSignatures rmatch line rest

/-- `LogFilter::is_suspicious` (src/filter.rs lines 12-54): signatures
first, then the configured error codes (case-insensitively), then the
markup-injection heuristic, then the SQL-injection heuristic. -/
def LogFilter.is_suspicious (cfg : LogFilterConfig)
    (rmatch : String → Option (String → Bool)) (line : String) : Bool :=
  if checkSignatures rmatch line cfg.signatures then true
  else
    let upper_line := strToUpper line
    if cfg.error_codes.any (fun p => strContains upper_line (strToUpper p)) then true
    else if strContains line "<" &&
        (strContains line "SCRIPT" || strContains line "IMG" || strContains line "SVG") then true
    else if (strContains line "\x27" || strContains line "--" || strContains line "/*") &&
        (strContains line " OR " || strContains line " AND " || strContains line "SELECT") then true
    else false

/- ### Aggregator (`src/aggregator.rs`) -/

/-- `LogAggregator::new` (src/aggregator.rs lines 13-22) reduced to the
stored boundary matcher: `compile` is the regex engine oracle
(`Regex::new(&p).ok()`), so a pattern that fails to compile is silently
dropped via `and_then`. -/
def LogAggregator.new (multiline_pattern : Option String)
    (compile : String → Option (String → Bool)) : Option (String → Bool) :=
  multiline_pattern.bind fun p => compile p

/-- The boundary test of `LogAggregator::run` (src/aggregator.rs lines
37-41): with no matcher configured every line is a new entry. -/
def isNewEntry (matcher : Option (String → Bool)) (clean_line : String) : Bool :=
  match matcher with
  | some re => re clean_line
  | none => true

/-- One iteration of the `Some(line) = rx.recv()` arm of
`LogAggregator::run` (src/aggregator.rs lines 34-57): returns the new
buffer together with the entries emitted (`process`ed) by this line. -/
def aggStep (matcher : Option (String → Bool)) (buffer line : String) :
    String × List String :=
  let clean_line := trimEnd line
  if isNewEntry matcher clean_line then
    if buffer = "" then (clean_line, [])
    else (clean_line, [buffer])
  else
    if buffer = "" then (clean_line, [])
    else (buffer ++ "\n" ++ clean_line, [])

/-- Folding `aggStep` over the input lines, accumulating emissions. -/
def aggFold (matcher : Option (String → Bool)) (buffer : String) :
    List String → String × List String
  | [] => (buffer, [])
  | line :: rest =>
    let step := aggStep matcher buffer line
    let next := aggFold matcher step.1 rest
    (next.1, step.2 ++ next.2)

/-- The rest of `LogAggregator::run` starting from buffer `buffer`:
process every remaining line, then (the `else` arm of the `select!`, on
channel closure) emit the remaining non-empty buffer once. -/
def aggRunFrom (matcher : Option (String → Bool)) (buffer : String)
    (lines : List String) : List String :=
  let final := aggFold matcher buffer lines
  if final.1 = "" then final.2 else final.2 ++ [final.1]

/-- `LogAggregator::run` on a finite input stream followed by channel
closure (src/aggregator.rs lines 24-73, idle-timer arm never firing):
the buffer starts empty. -/
def LogAggregator.run (matcher : Option (String → Bool))
    (lines : List String) : List String :=
  aggRunFrom matcher "" lines

/- ### Batch scheduler (the task spawned in `src/main.rs` lines 183-207) -/

/-- Scheduler state: the accumulator `batch` and the record of all batches
handed to `flush_batch` so far. -/
structure SchedState where
  batch : List String
  flushes : List (List String)
deriving DecidableEq, Repr

/-- `flush_batch` (src/main.rs lines 235-268) as seen by the scheduler:
`std::mem::take` empties the accumulator and the taken lines go to the
classifier/dispatcher, recorded here as one flushed batch. -/
def flushBatch (st : SchedState) : SchedState :=
  { batch := [], flushes := st.flushes ++ [st.batch] }

/-- The two arms of the scheduler's `select!` loop. -/
inductive SchedEvent where
  | recv (log : String)
  | timer
deriving DecidableEq, Repr

/-- One iteration of the scheduler loop (src/main.rs lines 191-205): a
received log is pushed and the batch flushed once it reaches
`batch_size`; a timer expiry flushes a non-empty batch. -/
def schedStep (batch_size : Nat) (st : SchedState) : SchedEvent → SchedState
  | .recv log =>
    let st' := { st with batch := st.batch ++ [log] }
    if batch_size ≤ st'.batch.length then flushBatch st' else st'
  | .timer =>
    if st.batch.isEmpty then st else flushBatch st

/-- Scheduler behaviour when the input channel closes: the
`Some(log) = analysis_rx.recv()` arm is simply disabled — the loop has no
closed-channel arm, performs no flush and does not terminate, so the state
is unchanged. -/
def schedOnClose (st : SchedState) : SchedState := st

/-- Running the scheduler over a finite event trace. -/
def schedRun (batch_size : Nat) (events : List SchedEvent) : SchedState :=
  events.foldl (schedStep batch_size) { batch := [], flushes := [] }

/-- Modelled from the spec: the close behaviour the specification
describes for the Batch Scheduler — "On stream closure, any non-empty
accumulator is flushed once before termination."  Used only to compare
against `schedOnClose`, the behaviour of the code. -/
def schedOnCloseSpec (st : SchedState) : SchedState :=
  if st.batch.isEmpty then st else flushBatch st

/- ### Dispatcher (`src/dispatcher.rs` lines 240-267) -/

/-- What one dispatch did: the outcome of each `sink.send` call actually
made, in sink order, and the dispatcher's own return value (`none` would be
an error; the code always returns `Ok(())`). -/
structure DispatchTrace where
  calls : List (Except String Unit)
  result : Except String Unit
deriving Repr

/-- `Dispatcher::dispatch` (src/dispatcher.rs lines 253-266): gate on the
rate limiter keyed by `attack_type`; if allowed, call every sink's `send`
once, logging and ignoring each error; always return `Ok(())`.  `check`
models `AlertRateLimiter::check_alert` and each element of `sinks` models
one sink's `send` applied to this alert. -/
def Dispatcher.dispatch (check : String → Bool)
    (sinks : List (SecurityAlert → Except String Unit))
    (alert : SecurityAlert) : DispatchTrace :=
  if check alert.attack_type then
    { calls := sinks.map (fun s => s alert), result := .ok () }
  else
    { calls := [], result := .ok () }

/- ### Sink retry loop (`src/dispatcher.rs`, `BffSink::send` lines 44-85;
`SlackSink` and `EmailSink` share the identical loop) -/

/-- Result of one sink `send`: how many delivery attempts were made, the
backoff delays slept between consecutive attempts (in ms, in order), and
whether the send returned `Ok`. -/
structure SendTrace where
  attempts : Nat
  delays : List Nat
  success : Bool
deriving DecidableEq, Repr

/-- The retry loop of `BffSink::send`, recursing on the remaining attempt
budget `fuel = max_retries - attempts` (the Rust loop increments `attempts`
and exits with an error once `attempts >= max_retries`).  `outcomes n`
tells whether the n-th HTTP attempt (0-based) succeeds. -/
def sinkSendLoop (outcomes : Nat → Bool) (attempts : Nat) :
    Nat → SendTrace
  | 0 => { attempts := attempts, delays := [], success := false }
  | fuel + 1 =>
    if outcomes attempts then
      { attempts := attempts + 1, delays := [], success := true }
    else
      if fuel = 0 then
        { attempts := attempts + 1, delays := [], success := false }
      else
        let rest := sinkSendLoop outcomes (attempts + 1) fuel
        { rest with delays := 500 * (attempts + 1) :: rest.delays }

/-- `BffSink::send` (src/dispatcher.rs lines 44-85): `attempts` starts at
0 and `max_retries = 3`. -/
def BffSink.send (outcomes : Nat → Bool) : SendTrace :=
  sinkSendLoop outcomes 0 3

/-- `FileLoggerSink::send` (src/dispatcher.rs lines 230-238): a single
attempt with no retry loop; `ioOk` is whether the open-and-append
succeeds. -/
def FileLoggerSink.send (ioOk : Bool) : SendTrace :=
  { attempts := 1, delays := [], success := ioOk }

/- ### Rate limiter (`src/ratelimiter.rs`) -/

/-- `Quota::with_period` from the `governor` crate, per its documented
contract: `None` exactly when the duration is zero.  The duration passed is
`Duration::from_secs(period_seconds)`, zero iff `period_seconds = 0`. -/
def quotaWithPeriod (period_seconds : Nat) : Option Nat :=
  if period_seconds = 0 then none else some period_seconds

/-- `NonZeroU32::new`. -/
def nonZeroU32New (n : Nat) : Option Nat :=
  if n = 0 then none else some n

/-- `AlertRateLimiter::new` (src/ratelimiter.rs lines 14-29): fail with a
`RateLimit` error when `with_period` or `NonZeroU32::new` yields nothing,
otherwise succeed with the keyed limiter's quota. -/
def AlertRateLimiter.new (period_seconds burst : Nat) :
    Except String (Nat × Nat) :=
  match quotaWithPeriod period_seconds with
  | none => .error "period_seconds must be greater than zero"
  | some period =>
    match nonZeroU32New burst with
    | none => .error "burst must be greater than zero"
    | some b => .ok (period, b)

/-- Modelled from the spec: the keyed token bucket implemented by the
external `governor` crate behind `AlertRateLimiter::check_alert`
(src/ratelimiter.rs lines 31-33).  Per §4.4 of the specification, each
distinct key owns an independent bucket with capacity = burst that fully
refills over the configured period; a fresh key starts with a full
bucket. -/
structure Bucket where
  tokens : ℚ
  last_refill : ℚ
deriving DecidableEq, Repr

structure RateLimitConfig where
  burst : Nat
  period_seconds : Nat
deriving DecidableEq, Repr

/-- Modelled from the spec: bring a bucket up to date at time `now`
(seconds): refill at one token per `period/burst`, capped at capacity. -/
def Bucket.refill (cfg : RateLimitConfig) (b : Bucket) (now : ℚ) : Bucket :=
  let rate : ℚ := (cfg.burst : ℚ) / (cfg.period_seconds : ℚ)
  { tokens := min (cfg.burst : ℚ) (b.tokens + (now - b.last_refill) * rate)
    last_refill := now }

/-- The keyed store of buckets (`DashMapStateStore<String>`): absent keys
have no bucket yet. -/
def BucketStore := String → Option Bucket

/-- Modelled from the spec: `check(key)` at time `now` — look the key up
(a fresh key gets a full bucket), refill, then atomically consume one
token if at least one is available, returning whether the alert may
pass. -/
def checkAlert (cfg : RateLimitConfig) (store : BucketStore)
    (key : String) (now : ℚ) : Bool × BucketStore :=
  let b0 := (store key).getD { tokens := (cfg.burst : ℚ), last_refill := now }
  let b1 := b0.refill cfg now
  if 1 ≤ b1.tokens then
    (true, fun k => if k = key then some { b1 with tokens := b1.tokens - 1 } else store k)
  else
    (false, fun k => if k = key then some b1 else store k)

/-- The empty bucket store. -/
def emptyStore : BucketStore := fun _ => none

/-- Run a sequence of `check` calls (key, time) left to right, collecting
the results. -/
def checkSeq (cfg : RateLimitConfig) :
    BucketStore → List (String × ℚ) → List Bool × BucketStore
  | store, [] => ([], store)
  | store, (k, t) :: rest =>
    let r := checkAlert cfg store k t
    let rec' := checkSeq cfg r.2 rest
    (r.1 :: rec'.1, rec'.2)

/- ### Specification-side characterizations and concrete instances used in
the theorems below -/

/-- Whether a batch result element survives `analyze_batch`'s loop: its
explicit status is not the string NULL (an absent status reads as `""`)
and its index (absent reads as `0`) is within the submitted range. -/
def keepItem (lines : List String) (item : BatchResultItem) : Bool :=
  !(item.status.getD "" == "NULL") && decide (item.index.getD 0 < lines.length)

/-- The alert a surviving result element produces. -/
def itemAlert (lines : List String) (source now : String)
    (item : BatchResultItem) : SecurityAlert :=
  { timestamp := now
    source_type := source
    severity := item.severity.getD "LOW"
    attack_type := item.attack_type.getD "Unknown"
    description := item.description.getD ""
    original_log := lines.getD (item.index.getD 0) "" }

/-- The classifier result array of the spec's 3-entry batch-correlation
example: indices 0 and 2 flagged as threats, index 1 explicitly NULL. -/
def exampleBatchItems : List BatchResultItem :=
  [ { index := some 0, status := none, severity := some "HIGH",
      attack_type := some "SQLi", description := some "d1" },
    { index := some 1, status := some "NULL", severity := none,
      attack_type := none, description := none },
    { index := some 2, status := none, severity := some "MEDIUM",
      attack_type := some "XSS", description := some "d2" } ]

/-- A single classifier result element whose status field is absent. -/
def absentStatusItem : BatchResultItem :=
  { index := some 0, status := none, severity := some "HIGH",
    attack_type := some "XSS", description := some "d" }

/-- A filter configuration holding the single exact signature `admin`. -/
def adminConfig : LogFilterConfig :=
  { signatures_path := "mock.toml"
    error_codes := []
    multiline_pattern := none
    signatures := [ { id := "sig-admin", pattern := "admin",
                      sig_type := .Exact, description := "exact admin" } ] }

/-- The compiled matcher of the boundary pattern of the spec's aggregation
example: the regex matches exactly the lines starting with an opening
square bracket. -/
def bracketMatcher : Option (String → Bool) :=
  some fun l => ("[".data).isPrefixOf l.data

/-- The log payloads received over a scheduler event trace, in order. -/
def schedLogs (events : List SchedEvent) : List String :=
  events.filterMap fun e =>
    match e with
    | .recv s => some s
    | .timer => none

/-- The rate-limit configuration of the spec's burst-law example. -/
def burstExampleConfig : RateLimitConfig :=
  { burst := 3, period_seconds := 30 }

/-- Attempt outcomes where only the second HTTP attempt succeeds. -/
def failThenOk : Nat → Bool := fun n => n == 1

/-- Attempt outcomes where every HTTP attempt fails. -/
def alwaysFail : Nat → Bool := fun _ => false

/-- A sink whose `send` always fails. -/
def failingSink : SecurityAlert → Except String Unit := fun _ => .error "boom"

/-- A sink whose `send` always succeeds. -/
def okSink : SecurityAlert → Except String Unit := fun _ => .ok ()

/-- A concrete alert used to instantiate dispatcher facts. -/
def exampleAlert : SecurityAlert :=
  { timestamp := "t", source_type := "src", severity := "HIGH",
    attack_type := "XSS", description := "d", original_log := "x" }

/-! ## Theorems -/

/-- The batch loop keeps exactly the elements `keepItem` keeps and maps
them to their alerts. -/
theorem analyzeBatchLoop_eq (lines : List String) (source now : String)
    (items : List BatchResultItem) :
    analyzeBatchLoop lines source now items =
      (items.filter (keepItem lines)).map (itemAlert lines source now) := by
  induction items with
  | nil => rfl
  | cons item rest ih =>
    unfold analyzeBatchLoop
    by_cases hs : item.status.getD "" = "NULL"
    · simp [keepItem, itemAlert, hs, ih, List.filter_cons]
    · by_cases hi : lines.length ≤ item.index.getD 0
      · simp [keepItem, itemAlert, hs, hi, ih, List.filter_cons, Nat.not_lt.mpr hi]
      · simp [keepItem, itemAlert, hs, Nat.lt_of_not_le hi, ih, List.filter_cons]

/-- C8: `AlertRateLimiter::new` succeeds exactly when both the configured
period and burst are strictly positive; a zero period or zero burst is
rejected with an error (propagated fatally out of `main` via `?`). -/
theorem C8_rate_limiter_construction (period_seconds burst : Nat) :
    (∃ v, AlertRateLimiter.new period_seconds burst = .ok v) ↔
      0 < period_seconds ∧ 0 < burst := by
  unfold AlertRateLimiter.new quotaWithPeriod nonZeroU32New
  rcases Nat.eq_zero_or_pos period_seconds with h | h
  · simp [h]
  · rcases Nat.eq_zero_or_pos burst with h2 | h2
    · simp [h.ne', h2]
    · simp [h.ne', h2.ne', h, h2]

/-- C9: a transport error or an unparseable classifier response yields
zero alerts from `analyze_batch` and no alert from `analyze`, never an
error to the caller. -/
theorem C9_classifier_failure_no_alerts :
    (∀ lines source now, Agent.analyze_batch lines source now (.error ()) = []) ∧
    (∀ lines source now, Agent.analyze_batch lines source now (.ok none) = []) ∧
    (∀ line source now, Agent.analyze line source now (.error ()) = none) ∧
    (∀ line source now s, Agent.analyze line source now (.ok (s, none)) = none) := by
  refine ⟨fun _ _ _ => rfl, fun _ _ _ => rfl, fun _ _ _ => rfl, fun _ _ _ s => ?_⟩
  simp [Agent.analyze]

/-- C1 (counterexample to the claim as stated): a result element whose
`status` field is absent does produce an alert — `unwrap_or("")` makes an
absent status read as `""`, which is not `"NULL"`. -/
theorem C1_absent_status_counterexample :
    absentStatusItem.status = none ∧
    Agent.analyze_batch ["x"] "src" "t" (.ok (some [absentStatusItem])) ≠ [] := by
  exact ⟨rfl, by decide⟩

/-- C1 (amended): `analyze_batch` produces exactly one alert per result
element whose explicit status string is not `"NULL"` and whose index
(absent read as 0) is in range — an element with absent status is treated
as a threat, not dropped — with each alert's `original_log` the submitted
entry at that index; and the 3-entry example (threats at 0 and 2, `NULL`
at 1) yields exactly 2 alerts bound to entries 0 and 2. -/
theorem C1_batch_correlation :
    (∀ lines source now items,
        Agent.analyze_batch lines source now (.ok (some items)) =
          (items.filter (keepItem lines)).map (itemAlert lines source now)) ∧
    (Agent.analyze_batch ["a", "b", "c"] "src" "t"
        (.ok (some exampleBatchItems))).length = 2 ∧
    (Agent.analyze_batch ["a", "b", "c"] "src" "t"
        (.ok (some exampleBatchItems))).map SecurityAlert.original_log = ["a", "c"] := by
  refine ⟨fun lines source now items => ?_, rfl, rfl⟩
  exact analyzeBatchLoop_eq lines source now items

/-- C3: `dispatch` sends to no sink when the rate limiter denies the
alert's attack type; when allowed, every sink's `send` is called exactly
once with outcomes independent of each other; and `dispatch` itself
returns `Ok` in every case. -/
theorem C3_dispatcher_isolation (check : String → Bool)
    (sinks : List (SecurityAlert → Except String Unit)) (alert : SecurityAlert) :
    (check alert.attack_type = false →
        (Dispatcher.dispatch check sinks alert).calls = []) ∧
    (check alert.attack_type = true →
        (Dispatcher.dispatch check sinks alert).calls.length = sinks.length ∧
        ∀ i, (Dispatcher.dispatch check sinks alert).calls.get? i =
          (sinks.get? i).map fun s => s alert) ∧
    (Dispatcher.dispatch check sinks alert).result = .ok () := by
  unfold Dispatcher.dispatch
  by_cases h : check alert.attack_type = true
  · simp [h, List.get?_map]
  · simp [h]

/-- Witness for C3: with a failing first sink and a succeeding second
sink, the second sink still receives the alert, the first sink's failure
is recorded, a denied check touches no sink, and dispatch returns `Ok`. -/
theorem C3_dispatcher_isolation_witness :
    (Dispatcher.dispatch (fun _ => true) [failingSink, okSink] exampleAlert).calls.get? 0 =
        some (.error "boom") ∧
    (Dispatcher.dispatch (fun _ => true) [failingSink, okSink] exampleAlert).calls.get? 1 =
        some (.ok ()) ∧
    (Dispatcher.dispatch (fun _ => false) [failingSink, okSink] exampleAlert).calls = [] ∧
    (Dispatcher.dispatch (fun _ => true) [failingSink, okSink] exampleAlert).result =
        .ok () := by
  have h1 := C3_dispatcher_isolation (fun _ => true) [failingSink, okSink] exampleAlert
  have h2 := C3_dispatcher_isolation (fun _ => false) [failingSink, okSink] exampleAlert
  exact ⟨((h1.2.1 rfl).2 0).trans rfl, ((h1.2.1 rfl).2 1).trans rfl, h2.1 rfl, h1.2.2⟩

/-- C7: one dispatch drives a retrying sink's `send` through at most 3
delivery attempts (3 = the loop's `max_retries` budget, within the
`1 + max_retries` bound), with strictly increasing backoff delays between
consecutive attempts; `send` succeeds at the first successful attempt and
fails only after the final failed attempt; the file sink makes exactly
one attempt. -/
theorem C7_sink_retry_bound (outcomes : Nat → Bool) :
    (BffSink.send outcomes).attempts ≤ 3 ∧
    (BffSink.send outcomes).attempts ≤ 1 + 3 ∧
    List.Chain' (· < ·) (BffSink.send outcomes).delays ∧
    ((BffSink.send outcomes).success = true →
        outcomes ((BffSink.send outcomes).attempts - 1) = true ∧
        ∀ j < (BffSink.send outcomes).attempts - 1, outcomes j = false) ∧
    ((BffSink.send outcomes).success = false →
        (BffSink.send outcomes).attempts = 3 ∧ ∀ j < 3, outcomes j = false) ∧
    (∀ ioOk, (FileLoggerSink.send ioOk).attempts = 1 ∧
        (FileLoggerSink.send ioOk).delays = [] ∧
        (FileLoggerSink.send ioOk).success = ioOk) := by
  cases h0 : outcomes 0 <;> cases h1 : outcomes 1 <;> cases h2 : outcomes 2 <;>
    simp [BffSink.send, sinkSendLoop, FileLoggerSink.send, h0, h1, h2] <;>
    intro j hj <;> interval_cases j <;> assumption

/-- Witness for C7: with the second attempt succeeding, the trace stays
within the attempt bound, its delays increase, and the last attempt made
is the successful one; with every attempt failing, exactly 3 attempts are
made. -/
theorem C7_sink_retry_bound_witness :
    (BffSink.send failThenOk).attempts ≤ 3 ∧
    List.Chain' (· < ·) (BffSink.send failThenOk).delays ∧
    failThenOk ((BffSink.send failThenOk).attempts - 1) = true ∧
    (BffSink.send alwaysFail).attempts = 3 := by
  have h := C7_sink_retry_bound failThenOk
  have h2 := C7_sink_retry_bound alwaysFail
  exact ⟨h.1, h.2.2.1, (h.2.2.2.1 rfl).1, (h2.2.2.2.2.1 rfl).1⟩

/-- C5: a boundary line (per the compiled pattern, or any line when none
is configured) emits a non-empty buffer and starts a fresh buffer from the
new line; a continuation line is appended to a non-empty buffer separated
by a newline; on stream closure a non-empty buffer is emitted once more;
and the spec's `^\[` example produces exactly its two stated entries. -/
theorem C5_aggregation_boundary :
    (∀ matcher buffer line, isNewEntry matcher (trimEnd line) = true → buffer ≠ "" →
        aggStep matcher buffer line = (trimEnd line, [buffer])) ∧
    (∀ matcher buffer line, isNewEntry matcher (trimEnd line) = false → buffer ≠ "" →
        aggStep matcher buffer line = (buffer ++ "\n" ++ trimEnd line, [])) ∧
    (∀ matcher lines, (aggFold matcher "" lines).1 ≠ "" →
        LogAggregator.run matcher lines =
          (aggFold matcher "" lines).2 ++ [(aggFold matcher "" lines).1]) ∧
    LogAggregator.run bracketMatcher ["[e1] start", "  continued", "[e2] start"] =
      ["[e1] start\n  continued", "[e2] start"] := by
  refine ⟨fun matcher buffer line hb hne => ?_, fun matcher buffer line hb hne => ?_,
          fun matcher lines hne => ?_, rfl⟩
  · simp [aggStep, hb, hne]
  · simp [aggStep, hb, hne]
  · simp [LogAggregator.run, aggRunFrom, hne]

/-- Witness for C5: concrete boundary, continuation and closure-flush
instances of the aggregation laws. -/
theorem C5_aggregation_boundary_witness :
    aggStep bracketMatcher "old" "[x]" = ("[x]", ["old"]) ∧
    aggStep bracketMatcher "old" "  cont" = ("old\n  cont", []) ∧
    LogAggregator.run bracketMatcher ["[a]"] = [] ++ ["[a]"] := by
  have h := C5_aggregation_boundary
  exact ⟨h.1 bracketMatcher "old" "[x]" rfl (by decide),
         h.2.1 bracketMatcher "old" "  cont" rfl (by decide),
         h.2.2.1 bracketMatcher ["[a]"] (by decide)⟩

/-- With no boundary matcher and all lines non-empty after trimming,
running from a non-empty buffer yields that buffer and then each line as
its own entry. -/
theorem aggRunFrom_none (lines : List String)
    (h : ∀ l ∈ lines, trimEnd l ≠ "") (buffer : String) (hb : buffer ≠ "") :
    aggRunFrom none buffer lines = buffer :: lines.map trimEnd := by
  induction lines generalizing buffer with
  | nil => simp [aggRunFrom, aggFold, hb]
  | cons line rest ih =>
    have hl : trimEnd line ≠ "" := h line (by simp)
    have hrest : ∀ l ∈ rest, trimEnd l ≠ "" := fun l hm => h l (by simp [hm])
    have step : aggStep none buffer line = (trimEnd line, [buffer]) := by
      simp [aggStep, isNewEntry, hb]
    have key := ih hrest (trimEnd line) hl
    simp only [aggRunFrom, aggFold, step] at key ⊢
    by_cases hfin : (aggFold none (trimEnd line) rest).1 = "" <;>
      simp [hfin] at key ⊢ <;> simp [key]

/-- With no boundary matcher and all lines non-empty after trimming, every
line becomes its own (trimmed) entry, in order. -/
theorem run_none (lines : List String) (h : ∀ l ∈ lines, trimEnd l ≠ "") :
    LogAggregator.run none lines = lines.map trimEnd := by
  cases lines with
  | nil => rfl
  | cons line rest =>
    have hl : trimEnd line ≠ "" := h line (by simp)
    have hrest : ∀ l ∈ rest, trimEnd l ≠ "" := fun l hm => h l (by simp [hm])
    have step : aggStep none "" line = (trimEnd line, []) := by
      simp [aggStep, isNewEntry]
    have key := aggRunFrom_none rest hrest (trimEnd line) hl
    simp only [LogAggregator.run, aggRunFrom, aggFold, step] at key ⊢
    by_cases hfin : (aggFold none (trimEnd line) rest).1 = "" <;>
      simp [hfin] at key ⊢ <;> simp [key]

/-- C10: a multiline boundary pattern that fails to compile is silently
dropped by `LogAggregator::new` — no error is raised, the stored matcher
equals the one stored when no pattern is configured at all — and the
aggregator consequently treats every (non-blank) line as its own entry. -/
theorem C10_invalid_multiline_pattern (p : String)
    (compile : String → Option (String → Bool)) (h : compile p = none) :
    LogAggregator.new (some p) compile = LogAggregator.new none compile ∧
    LogAggregator.new (some p) compile = none ∧
    ∀ lines, (∀ l ∈ lines, trimEnd l ≠ "") →
      LogAggregator.run (LogAggregator.new (some p) compile) lines =
        lines.map trimEnd := by
  have hnew : LogAggregator.new (some p) compile = none := by
    simp [LogAggregator.new, h]
  refine ⟨by simp [LogAggregator.new, h], hnew, fun lines hl => ?_⟩
  rw [hnew]
  exact run_none lines hl

/-- Witness for C10: a compile oracle rejecting the pattern leads to no
stored matcher and to line-per-entry behaviour. -/
theorem C10_invalid_multiline_pattern_witness :
    LogAggregator.new (some "[") (fun _ => none) = none ∧
    LogAggregator.run (LogAggregator.new (some "[") (fun _ => none)) ["a", "b"] =
      ["a", "b"].map trimEnd := by
  have h := C10_invalid_multiline_pattern "[" (fun _ => none) rfl
  exact ⟨h.2.1, h.2.2 ["a", "b"] (by decide)⟩

/-- One scheduler step preserves the received payloads: whatever the event,
the flushed batches followed by the accumulator still list exactly the
logs received so far, in order. -/
theorem schedStep_logs (batch_size : Nat) (st : SchedState) (e : SchedEvent) :
    (schedStep batch_size st e).flushes.flatten ++ (schedStep batch_size st e).batch =
      st.flushes.flatten ++ st.batch ++ schedLogs [e] := by
  cases e with
  | recv log =>
    simp only [schedStep]
    split
    · simp [flushBatch, schedLogs, List.flatten_append]
    · simp [schedLogs]
  | timer =>
    simp only [schedStep]
    split
    next hb => simp [schedLogs, List.isEmpty_iff.mp hb]
    next hb => simp [flushBatch, schedLogs, List.flatten_append]

/-- Over a whole event trace, the scheduler loses no accepted entry: the
flushed batches plus the final accumulator are exactly the received logs. -/
theorem schedFoldl_logs (batch_size : Nat) (events : List SchedEvent) :
    ∀ st : SchedState,
      (events.foldl (schedStep batch_size) st).flushes.flatten ++
          (events.foldl (schedStep batch_size) st).batch =
        st.flushes.flatten ++ st.batch ++ schedLogs events := by
  induction events with
  | nil => intro st; simp [schedLogs]
  | cons e rest ih =>
    intro st
    have hlogs : schedLogs (e :: rest) = schedLogs [e] ++ schedLogs rest := by
      cases e <;> simp [schedLogs]
    rw [List.foldl_cons, ih (schedStep batch_size st e), schedStep_logs, hlogs,
      List.append_assoc]

/-- C2 (counterexample to the claim as stated): on stream closure the
scheduler's `select!` has no closed-channel arm — the `Some(log)` pattern
just disables the receive branch — so a non-empty accumulator is not
flushed at closure and the loop does not terminate, contrary to the
specified close behaviour `schedOnCloseSpec`. -/
theorem C2_close_counterexample :
    (schedOnClose { batch := ["a"], flushes := [] }).flushes = [] ∧
    (schedOnCloseSpec { batch := ["a"], flushes := [] }).flushes = [["a"]] ∧
    schedOnClose { batch := ["a"], flushes := [] } ≠
      schedOnCloseSpec { batch := ["a"], flushes := [] } := by
  decide

/-- C2 (amended): a batch is flushed exactly when a received entry brings
the accumulator to the configured maximum size, or when the wait timer
fires with a non-empty accumulator; after every flush the accumulator is
empty.  On stream closure the scheduler performs no flush and keeps
looping unchanged; while it runs, no accepted entry is lost — the flushed
batches plus the accumulator always list exactly the received entries —
and a non-empty accumulator left at closure is flushed at the next timer
expiry (rather than once at closure before termination, as the spec
states). -/
theorem C2_batch_scheduler_amended (batch_size : Nat) :
    (∀ st log, st.batch.length + 1 = batch_size →
        schedStep batch_size st (.recv log) =
          { batch := [], flushes := st.flushes ++ [st.batch ++ [log]] }) ∧
    (∀ st log, st.batch.length + 1 < batch_size →
        schedStep batch_size st (.recv log) =
          { batch := st.batch ++ [log], flushes := st.flushes }) ∧
    (∀ st, st.batch ≠ [] → schedStep batch_size st .timer =
        { batch := [], flushes := st.flushes ++ [st.batch] }) ∧
    (∀ st, st.batch = [] → schedStep batch_size st .timer = st) ∧
    (∀ st, schedOnClose st = st) ∧
    (∀ st, st.batch ≠ [] → schedStep batch_size (schedOnClose st) .timer =
        { batch := [], flushes := st.flushes ++ [st.batch] }) ∧
    (∀ events, (schedRun batch_size events).flushes.flatten ++
        (schedRun batch_size events).batch = schedLogs events) := by
  have htimer : ∀ st : SchedState, st.batch ≠ [] → schedStep batch_size st .timer =
      { batch := [], flushes := st.flushes ++ [st.batch] } := by
    intro st hne
    simp [schedStep, flushBatch, List.isEmpty_iff, hne]
  refine ⟨fun st log hlen => ?_, fun st log hlen => ?_, htimer,
          fun st he => ?_, fun st => rfl, fun st hne => htimer st hne, fun events => ?_⟩
  · simp [schedStep, flushBatch, Nat.le_of_eq hlen.symm]
  · simp [schedStep, flushBatch, Nat.not_le.mpr hlen]
  · simp [schedStep, he]
  · have h := schedFoldl_logs batch_size events { batch := [], flushes := [] }
    simpa [schedRun, schedLogs] using h

/-- Witness for C2 (amended): a size-triggered flush, a below-size
receive, the post-closure timer flush, and the no-loss law on a concrete
trace. -/
theorem C2_batch_scheduler_amended_witness :
    schedStep 2 { batch := ["a"], flushes := [] } (.recv "b") =
      { batch := [], flushes := [["a", "b"]] } ∧
    schedStep 2 { batch := [], flushes := [] } (.recv "a") =
      { batch := ["a"], flushes := [] } ∧
    schedStep 2 (schedOnClose { batch := ["a"], flushes := [] }) .timer =
      { batch := [], flushes := [["a"]] } ∧
    (schedRun 2 [.recv "a", .timer]).flushes.flatten ++
        (schedRun 2 [.recv "a", .timer]).batch = schedLogs [.recv "a", .timer] := by
  have h := C2_batch_scheduler_amended 2
  exact ⟨h.1 _ "b" (by decide), h.2.1 _ "a" (by decide),
         h.2.2.2.2.2.1 _ (by decide), h.2.2.2.2.2.2 [.recv "a", .timer]⟩

/-- A single signature matches exactly per its kind: exact substring,
case-insensitive substring, or a regex that compiled and matched. -/
theorem sigMatches_iff (rmatch : String → Option (String → Bool))
    (line : String) (sig : ThreatSignature) :
    sigMatches rmatch line sig = true ↔
      ((sig.sig_type = .Exact ∧ strContains line sig.pattern = true) ∨
       (sig.sig_type = .CaseInsensitive ∧
          strContains (strToUpper line) (strToUpper sig.pattern) = true) ∨
       (sig.sig_type = .Regex ∧ ∃ re, rmatch sig.pattern = some re ∧ re line = true)) := by
  cases hs : sig.sig_type with
  | Exact => simp [sigMatches, hs]
  | CaseInsensitive => simp [sigMatches, hs]
  | Regex =>
    cases hr : rmatch sig.pattern with
    | none => simp [sigMatches, hs, hr]
    | some re => simp [sigMatches, hs, hr]

/-- The signature loop returns true exactly when some signature in the
store matches. -/
theorem checkSignatures_iff (rmatch : String → Option (String → Bool))
    (line : String) (sigs : List ThreatSignature) :
    checkSignatures rmatch line sigs = true ↔
      ∃ sig ∈ sigs, sigMatches rmatch line sig = true := by
  induction sigs with
  | nil => simp [checkSignatures]
  | cons sig rest ih => simp [checkSignatures, ih, Bool.or_eq_true]

/-- Splitting the signature-store existential by signature kind. -/
theorem exists_sigMatches_split (rmatch : String → Option (String → Bool))
    (line : String) (sigs : List ThreatSignature) :
    (∃ sig ∈ sigs, sigMatches rmatch line sig = true) ↔
      ((∃ sig ∈ sigs, sig.sig_type = .Exact ∧ strContains line sig.pattern = true) ∨
       (∃ sig ∈ sigs, sig.sig_type = .CaseInsensitive ∧
          strContains (strToUpper line) (strToUpper sig.pattern) = true) ∨
       (∃ sig ∈ sigs, sig.sig_type = .Regex ∧
          ∃ re, rmatch sig.pattern = some re ∧ re line = true)) := by
  simp only [sigMatches_iff, and_or_left, exists_or]

/-- The sequential early-return structure of `is_suspicious` computes the
disjunction of its four checks. -/
theorem is_suspicious_eq_or (cfg : LogFilterConfig)
    (rmatch : String → Option (String → Bool)) (line : String) :
    LogFilter.is_suspicious cfg rmatch line =
      (checkSignatures rmatch line cfg.signatures ||
       (strContains line "<" &&
         (strContains line "SCRIPT" || strContains line "IMG" || strContains line "SVG")) ||
       ((strContains line "\x27" || strContains line "--" || strContains line "/*") &&
         (strContains line " OR " || strContains line " AND " || strContains line "SELECT")) ||
       cfg.error_codes.any (fun p => strContains (strToUpper line) (strToUpper p))) := by
  cases h1 : checkSignatures rmatch line cfg.signatures <;>
    cases h2 : cfg.error_codes.any (fun p => strContains (strToUpper line) (strToUpper p)) <;>
      cases h3 : (strContains line "<" &&
          (strContains line "SCRIPT" || strContains line "IMG" || strContains line "SVG")) <;>
        cases h4 : ((strContains line "\x27" || strContains line "--" || strContains line "/*") &&
            (strContains line " OR " || strContains line " AND " || strContains line "SELECT")) <;>
          simp [LogFilter.is_suspicious, h1, h2, h3, h4]

/-- C4: `is_suspicious` is true exactly when some exact signature occurs
in the entry, some case-insensitive signature occurs after uppercasing,
some regex signature compiles and matches (a malformed regex never
matches and never errors), the markup-injection heuristic fires, the
SQL-injection heuristic fires, or a configured error code occurs
case-insensitively; and the exact signature `admin` matches
`User admin logged in` but not `User guest logged in`. -/
theorem C4_filter_characterization :
    (∀ cfg rmatch line,
        LogFilter.is_suspicious cfg rmatch line = true ↔
          ((∃ sig ∈ cfg.signatures, sig.sig_type = .Exact ∧
              strContains line sig.pattern = true) ∨
           (∃ sig ∈ cfg.signatures, sig.sig_type = .CaseInsensitive ∧
              strContains (strToUpper line) (strToUpper sig.pattern) = true) ∨
           (∃ sig ∈ cfg.signatures, sig.sig_type = .Regex ∧
              ∃ re, rmatch sig.pattern = some re ∧ re line = true) ∨
           (strContains line "<" = true ∧
              (strContains line "SCRIPT" = true ∨ strContains line "IMG" = true ∨
               strContains line "SVG" = true)) ∨
           ((strContains line "\x27" = true ∨ strContains line "--" = true ∨
               strContains line "/*" = true) ∧
              (strContains line " OR " = true ∨ strContains line " AND " = true ∨
               strContains line "SELECT" = true)) ∨
           (∃ c ∈ cfg.error_codes,
              strContains (strToUpper line) (strToUpper c) = true))) ∧
    LogFilter.is_suspicious adminConfig (fun _ => none) "User admin logged in" = true ∧
    LogFilter.is_suspicious adminConfig (fun _ => none) "User guest logged in" = false := by
  refine ⟨fun cfg rmatch line => ?_, by decide, by decide⟩
  rw [is_suspicious_eq_or]
  simp only [Bool.or_eq_true, Bool.and_eq_true, checkSignatures_iff, List.any_eq_true,
    exists_sigMatches_split, or_assoc]

/-- C6: with burst 3 and period 30s, the first three checks on a key with
no intervening refill time succeed and the fourth fails while a distinct
key is unaffected; a successful check consumes exactly one token of the
refilled bucket, a denied check consumes none, and a check on one key
leaves every other key's bucket untouched. -/
theorem C6_rate_limiter_burst_law (k1 k2 : String) (hk : k1 ≠ k2) (t : ℚ) :
    (checkSeq burstExampleConfig emptyStore
        [(k1, t), (k1, t), (k1, t), (k1, t), (k2, t)]).1 =
      [true, true, true, false, true] ∧
    (∀ cfg store key now,
        ((checkAlert cfg store key now).1 = true →
          1 ≤ (((store key).getD
              { tokens := (cfg.burst : ℚ), last_refill := now }).refill cfg now).tokens ∧
          (checkAlert cfg store key now).2 key =
            some { tokens := (((store key).getD
                { tokens := (cfg.burst : ℚ), last_refill := now }).refill cfg now).tokens - 1,
                   last_refill := now }) ∧
        ((checkAlert cfg store key now).1 = false →
          (((store key).getD
              { tokens := (cfg.burst : ℚ), last_refill := now }).refill cfg now).tokens < 1 ∧
          (checkAlert cfg store key now).2 key =
            some (((store key).getD
              { tokens := (cfg.burst : ℚ), last_refill := now }).refill cfg now))) ∧
    (∀ cfg store key now k, k ≠ key → (checkAlert cfg store key now).2 k = store k) := by
  refine ⟨?_, fun cfg store key now => ?_, fun cfg store key now k hne => ?_⟩
  · norm_num [checkSeq, checkAlert, emptyStore, Bucket.refill, burstExampleConfig,
      Option.getD, Ne.symm hk]
  · simp only [checkAlert]
    split
    next hcond =>
      refine ⟨fun _ => ⟨hcond, ?_⟩, fun hfalse => by simp at hfalse⟩
      simp [Bucket.refill]
    next hcond =>
      refine ⟨fun htrue => by simp at htrue, fun _ => ⟨not_le.mp hcond, ?_⟩⟩
      simp
  · simp only [checkAlert]
    split <;> simp [hne]

/-- Witness for C6: the burst-law sequence at concrete keys and time. -/
theorem C6_rate_limiter_burst_law_witness :
    (checkSeq burstExampleConfig emptyStore
        [("A", 0), ("A", 0), ("A", 0), ("A", 0), ("B", 0)]).1 =
      [true, true, true, false, true] :=
  (C6_rate_limiter_burst_law "A" "B" (by decide) 0).1

end LogSentinel
